import Mathlib

/-!
# The result algebra and typed evaluation entry point of `mbgl::style::expression`

A shallow embedding of `include/mbgl/style/expression/expression.hpp`:
`EvaluationError`, `EvaluationParameters`, `Result<T>`, `EvaluationResult`,
the `Expression` base class and its typed overload `evaluate<T>`.

Conventions of the embedding.

* `variant<EvaluationError, T>` is an inductive type with one constructor per
  alternative; `is<U>()` is the test of the constructor.
* An accessor guarded by `assert` returns `Option`: `none` is the failed
  assertion, `some x` the value the accessor returns.
* `optional<U>` is `Option U`; a pointer is `Option` of a non-null pointer,
  `none` being `nullptr`.
* `float`, `double` and the pointee of the feature pointer are carriers only:
  the header stores and returns them and computes nothing on them, so they
  are type parameters.
* A node is embedded twice. `Expression` is a node at one moment: its virtual
  `const` member `evaluate` is a field that is a function of the call's
  arguments. `Node` is a node as an object whose members can change from call
  to call: a member function takes the object and returns the object after
  the call. `Node.evaluateAs_outcome` relates the two.
* `type.hpp` and `value.hpp` are not among the embedded sources. What
  `evaluate<T>` calls from them (`typeOf`, `toString`,
  `fromExpressionValue<T>`, `valueTypeToExpressionType<T>`,
  `toExpressionValue`) is a parameter of the definitions below.
-/

namespace mbgl.style.expression

/-! ## Data model -/

/-- An evaluation-time error, `struct EvaluationError`: a message string. -/
structure EvaluationError where
  message : String
deriving DecidableEq, Repr

/-- The evaluation context, `struct EvaluationParameters`: an optional zoom and
a feature pointer (`none` is `nullptr`). -/
structure EvaluationParameters (float FeaturePtr : Type) where
  zoom : Option float
  feature : Option FeaturePtr

/-- Constructor `EvaluationParameters(float zoom_)`:
`zoom(zoom_), feature(nullptr)`. -/
def EvaluationParameters.ofZoom {float FeaturePtr : Type} (zoom_ : float) :
    EvaluationParameters float FeaturePtr :=
  { zoom := some zoom_, feature := none }

/-- Constructor `EvaluationParameters(GeometryTileFeature const * feature_)`:
`zoom(optional<float>()), feature(feature_)`. -/
def EvaluationParameters.ofFeature {float FeaturePtr : Type} (feature_ : Option FeaturePtr) :
    EvaluationParameters float FeaturePtr :=
  { zoom := none, feature := feature_ }

/-- Constructor `EvaluationParameters(float zoom_, GeometryTileFeature const * feature_)`:
`zoom(zoom_), feature(feature_)`. -/
def EvaluationParameters.ofZoomFeature {float FeaturePtr : Type} (zoom_ : float)
    (feature_ : Option FeaturePtr) : EvaluationParameters float FeaturePtr :=
  { zoom := some zoom_, feature := feature_ }

/-- The class `Result<T>`, a `variant<EvaluationError, T>`. The two constructors
are the two converting constructors inherited from the variant. -/
inductive Result (T : Type) where
  | ofError (e : EvaluationError) : Result T
  | ofValue (t : T) : Result T
deriving DecidableEq, Repr

namespace Result

variable {T : Type}

/-- The variant query `is<T>()`. -/
def isT : Result T → Bool
  | ofError _ => false
  | ofValue _ => true

/-- The variant query `is<EvaluationError>()`. -/
def isEvaluationError : Result T → Bool
  | ofError _ => true
  | ofValue _ => false

/-- Conversion `explicit operator bool () const`: `return this->template is<T>();`. -/
def toBool (r : Result T) : Bool :=
  r.isT

/-- Dereference `operator*`: `assert(is<T>()); return get<T>();`. -/
def deref : Result T → Option T
  | ofError _ => none
  | ofValue t => some t

/-- Member access `operator->`: `assert(is<T>()); return addressof(get<T>());`. -/
def arrow : Result T → Option T
  | ofError _ => none
  | ofValue t => some t

/-- Accessor `error()`: `assert(is<EvaluationError>()); return get<EvaluationError>();`. -/
def error : Result T → Option EvaluationError
  | ofError e => some e
  | ofValue _ => none

end Result

/-- The struct `EvaluationResult`, a `Result<Value>` that inherits the
constructors of `Result`. -/
abbrev EvaluationResult (V : Type) : Type :=
  Result V

/-- A `std::array<double, 4>`. -/
abbrev array4 (double : Type) : Type :=
  Fin 4 → double

/-- Constructor `EvaluationResult(const std::array<double, 4>& arr)`:
`Result(toExpressionValue(arr))`. The conversion `toExpressionValue` of
`value.hpp` is a parameter. -/
def EvaluationResult.ofArray {V double : Type}
    (toExpressionValue : array4 double → V) (arr : array4 double) :
    EvaluationResult V :=
  Result.ofValue (toExpressionValue arr)

/-- What `evaluate<T>` uses of `type.hpp` and `value.hpp` whatever `T` is:
`typeOf(const Value&)` and `toString(const type::Type&)`. -/
structure TypeNames (V Ty : Type) where
  typeOf : V → Ty
  toString : Ty → String

/-- What `evaluate<T>` uses of `value.hpp` for one target type `T`:
`fromExpressionValue<T>` and `valueTypeToExpressionType<T>()`. -/
structure ValueConverter (V Ty T : Type) where
  fromExpressionValue : V → Option T
  valueTypeToExpressionType : Ty

/-- The class `Expression`: the private member `type`, set by the constructor
`Expression(type::Type type_)`, and the pure virtual
`evaluate(const EvaluationParameters&) const` supplied by the subclass. -/
structure Expression (V Ty float FeaturePtr : Type) where
  type : Ty
  evaluate : EvaluationParameters float FeaturePtr → EvaluationResult V

namespace Expression

variable {V Ty float FeaturePtr T : Type}

/-- Member `getType() const`: `return type;`. -/
def getType (E : Expression V Ty float FeaturePtr) : Ty :=
  E.type

/-- The message of the error `evaluate<T>` builds when the projection fails. -/
def mismatchMessage (names : TypeNames V Ty) (conv : ValueConverter V Ty T)
    (found : V) : String :=
  "Expected value to be of type " ++ names.toString conv.valueTypeToExpressionType ++
    ", but found " ++ names.toString (names.typeOf found) ++ " instead."

/-- The typed overload `template <typename T> Result<T> evaluate(params)`.
The outcome is `none` when one of the asserts of the accessors of `Result`
fails on the way, `some r` when the call returns `r`. -/
def evaluateAs (names : TypeNames V Ty) (conv : ValueConverter V Ty T)
    (E : Expression V Ty float FeaturePtr)
    (params : EvaluationParameters float FeaturePtr) : Option (Result T) :=
  let result := E.evaluate params
  if !result.toBool then
    -- return result.error();
    match result.error with
    | none => none
    | some e => some (Result.ofError e)
  else
    -- optional<T> converted = fromExpressionValue<T>(*result);
    match result.deref with
    | none => none
    | some v =>
      match conv.fromExpressionValue v with
      | some t => some (Result.ofValue t)
      | none =>
        -- the second `*result`, inside the message
        match result.deref with
        | none => none
        | some found => some (Result.ofError ⟨mismatchMessage names conv found⟩)

/-- One typed call `evaluate<T>(params)` made on a node: the target type, what
`value.hpp` provides for it, and the parameters. -/
structure TypedCall (V Ty float FeaturePtr : Type) where
  T : Type
  conv : ValueConverter V Ty T
  params : EvaluationParameters float FeaturePtr

/-- A subclass of `Expression` whose `evaluate` returns the same result for all
parameters. It serves as a concrete node. -/
def constant (type_ : Ty) (r : EvaluationResult V) :
    Expression V Ty float FeaturePtr :=
  { type := type_, evaluate := fun _ => r }

end Expression

/-! ## Nodes as objects with state

`Expression` above is the view of one node at one moment. To follow a node
through a sequence of calls, the node is an object with data members, and a
member function takes the object and returns the object after the call. -/

/-- A concrete subclass of `Expression`. `Members` is the type of the data
members the subclass adds; `evaluate` is its override of the virtual
`evaluate(const EvaluationParameters&) const`, as a function of the object it
is called on. The override reads the base member through the public
`getType()` and reads its own members. It returns its result and the values of
its own members after the call: a `const` member function can still assign the
members its class declares `mutable`. The member `type` is `private` in
`Expression`, which has no friend and no setter, so an override cannot name
it. -/
structure NodeClass (V Ty float FeaturePtr Members : Type) where
  evaluate : Ty → Members → EvaluationParameters float FeaturePtr →
    EvaluationResult V × Members

/-- An object of a subclass of `Expression`: the private member `type` of the
base and the members of the subclass. -/
structure Node (Ty Members : Type) where
  type : Ty
  members : Members

namespace Node

variable {V Ty float FeaturePtr Members T : Type}

/-- Constructor `Expression(type::Type type_) : type(std::move(type_))`, run
by the constructor of the subclass, which initializes its own members. -/
def construct (type_ : Ty) (members_ : Members) : Node Ty Members :=
  { type := type_, members := members_ }

/-- Member `getType() const`: `return type;`. -/
def getType (self : Node Ty Members) : Ty :=
  self.type

/-- The virtual call `evaluate(params)` on an object: the result of the
override and the object after the call, in which the override has left its
own members. -/
def evaluate (cls : NodeClass V Ty float FeaturePtr Members) (self : Node Ty Members)
    (params : EvaluationParameters float FeaturePtr) :
    EvaluationResult V × Node Ty Members :=
  let out := cls.evaluate self.getType self.members params
  (out.1, { self with members := out.2 })

/-- The typed overload `template <typename T> Result<T> evaluate(params)`, a
non-const member, as a function from the object before the call to the outcome
and the object after the call. The outcome is `none` when an assert of an
accessor of `Result` fails, `some r` when the call returns `r`. Each line of
the body runs on the object the line before it left. -/
def evaluateAs (names : TypeNames V Ty) (conv : ValueConverter V Ty T)
    (cls : NodeClass V Ty float FeaturePtr Members) (self : Node Ty Members)
    (params : EvaluationParameters float FeaturePtr) :
    Option (Result T) × Node Ty Members :=
  -- const auto& result = evaluate(params);
  let call := Node.evaluate cls self params
  let result := call.1
  let self1 := call.2
  if !result.toBool then
    -- return result.error();
    match result.error with
    | none => (none, self1)
    | some e => (some (Result.ofError e), self1)
  else
    -- optional<T> converted = fromExpressionValue<T>(*result);
    match result.deref with
    | none => (none, self1)
    | some v =>
      match conv.fromExpressionValue v with
      | some t => (some (Result.ofValue t), self1)
      | none =>
        -- the second `*result`, inside the message
        match result.deref with
        | none => (none, self1)
        | some found =>
          (some (Result.ofError ⟨Expression.mismatchMessage names conv found⟩), self1)

/-- The object after a sequence of typed calls, each made on the object the
call before it left. -/
def afterCalls (names : TypeNames V Ty) (cls : NodeClass V Ty float FeaturePtr Members)
    (self : Node Ty Members) :
    List (Expression.TypedCall V Ty float FeaturePtr) → Node Ty Members
  | [] => self
  | c :: cs => afterCalls names cls (Node.evaluateAs names c.conv cls self c.params).2 cs

/-- The view of an object at its present state as an `Expression`: its static
type and the results its `evaluate` returns in that state. -/
def toExpression (cls : NodeClass V Ty float FeaturePtr Members) (self : Node Ty Members) :
    Expression V Ty float FeaturePtr :=
  { type := self.type, evaluate := fun params => (Node.evaluate cls self params).1 }

end Node

/-! ## The value and type model of the specification

`value.hpp` and `type.hpp` are modelled from the specification's data model,
to have concrete values, types and projections to run the definitions on. -/

/-- Modelled from the spec: `type::Type` of `type.hpp`, which is not among the
sources. "A closed tagged union over: Boolean, Number, String, Color, Object,
Value (the dynamic/top type), Array(elementType, optional fixed length), Null,
and an error-type marker". -/
inductive ExprType where
  | Null : ExprType
  | Boolean : ExprType
  | Number : ExprType
  | String : ExprType
  | Color : ExprType
  | Object : ExprType
  | Value : ExprType
  | Array (itemType : ExprType) (N : Option Nat) : ExprType
  | Error : ExprType
deriving DecidableEq, Repr

/-- Modelled from the spec: `Value` of `value.hpp`, which is not among the
sources. "A closed tagged union over: null, boolean, double-precision number,
UTF-8 string, color (4-component), ordered sequence of Value (array), ordered
mapping from string to Value (object), and fixed-length numeric arrays of
length 2/3/4". -/
inductive Value where
  | null : Value
  | boolean (b : Bool) : Value
  | number (d : Float) : Value
  | string (s : String) : Value
  | color (r g b a : Float) : Value
  | array (items : List Value) : Value
  | object (entries : List (String × Value)) : Value
  | numbers2 (xs : Fin 2 → Float) : Value
  | numbers3 (xs : Fin 3 → Float) : Value
  | numbers4 (xs : Fin 4 → Float) : Value

/-- Modelled from the spec: `typeOf` of `value.hpp`, "a total function" from a
Value to its runtime Type. The spec does not say which element type and length
a sequence of Values reports; the top type and no declared length are used. -/
def typeOf : Value → ExprType
  | .null => .Null
  | .boolean _ => .Boolean
  | .number _ => .Number
  | .string _ => .String
  | .color _ _ _ _ => .Color
  | .array _ => .Array .Value none
  | .object _ => .Object
  | .numbers2 _ => .Array .Number (some 2)
  | .numbers3 _ => .Array .Number (some 3)
  | .numbers4 _ => .Array .Number (some 4)

/-- Modelled from the spec: `toString` of `type.hpp`, which "produces the
canonical name used in error messages (e.g., `"array<number, 3>"`)". -/
def toString : ExprType → String
  | .Null => "null"
  | .Boolean => "boolean"
  | .Number => "number"
  | .String => "string"
  | .Color => "color"
  | .Object => "object"
  | .Value => "value"
  | .Array itemType (some n) => "array<" ++ toString itemType ++ ", " ++ Nat.repr n ++ ">"
  | .Array itemType none => "array<" ++ toString itemType ++ ">"
  | .Error => "error"

/-- Modelled from the spec: `typeOf` and `toString` together, as `evaluate<T>`
uses them. -/
def specNames : TypeNames Value ExprType :=
  { typeOf := typeOf, toString := toString }

/-- Modelled from the spec: the typed projection for `T = bool` of `value.hpp`,
"absent if the dynamic type does not match T", with the static type of `bool`. -/
def boolConverter : ValueConverter Value ExprType Bool :=
  { fromExpressionValue := fun v =>
      match v with
      | .boolean b => some b
      | _ => none
    valueTypeToExpressionType := .Boolean }

/-! ## Concrete nodes and parameters -/

/-- Parameters with no zoom and a null feature: `EvaluationParameters(nullptr)`.
The zoom carrier is `Float` and a feature pointer is an address. -/
def noContext : EvaluationParameters Float Nat :=
  EvaluationParameters.ofFeature none

/-- Parameters with no zoom and the feature at address 7. -/
def featureContext : EvaluationParameters Float Nat :=
  EvaluationParameters.ofFeature (some 7)

/-- A node of static type String whose `evaluate` returns the string "abc". -/
def stringNode : Expression Value ExprType Float Nat :=
  Expression.constant ExprType.String (Result.ofValue (Value.string "abc"))

/-- A node of static type Boolean whose `evaluate` returns the boolean true. -/
def booleanNode : Expression Value ExprType Float Nat :=
  Expression.constant ExprType.Boolean (Result.ofValue (Value.boolean true))

/-- A node constructed with the static type String whose `evaluate` returns the
boolean true: the base class accepts any type at construction and any result
from the subclass. -/
def mistypedNode : Expression Value ExprType Float Nat :=
  Expression.constant ExprType.String (Result.ofValue (Value.boolean true))

/-- A node of static type Number whose `evaluate` returns an EvaluationError. -/
def failingNode : Expression Value ExprType Float Nat :=
  Expression.constant ExprType.Number
    (Result.ofError ⟨"zoom is not available in this evaluation context"⟩)

/-- A subclass of static type Boolean whose one member is a `mutable` counter
of the calls of `evaluate`; `evaluate` returns the boolean true. -/
def countingClass : NodeClass Value ExprType Float Nat Nat :=
  { evaluate := fun _ calls _ => (Result.ofValue (Value.boolean true), calls + 1) }

/-- An object of `countingClass`, constructed with the type Boolean and the
counter at 0. -/
def countingNode : Node ExprType Nat :=
  Node.construct ExprType.Boolean 0

/-- The typed call `evaluate<bool>(EvaluationParameters(nullptr))`. -/
def boolCall : Expression.TypedCall Value ExprType Float Nat :=
  { T := Bool, conv := boolConverter, params := noContext }

/-! ## Theorems -/

section Theorems

variable {V Ty float FeaturePtr Members T : Type}

/-- C5: a `Result<T>` holds an EvaluationError or a `T`, never both and never
neither; its boolean conversion is true exactly when it holds a `T` and false
exactly when it holds an EvaluationError. -/
theorem Result.two_arms (r : Result T) :
    ((∃ e, r = Result.ofError e) ∨ (∃ t, r = Result.ofValue t)) ∧
    ¬ ((∃ e, r = Result.ofError e) ∧ (∃ t, r = Result.ofValue t)) ∧
    (r.isEvaluationError = true ↔ ∃ e, r = Result.ofError e) ∧
    (r.isT = true ↔ ∃ t, r = Result.ofValue t) ∧
    (r.toBool = true ↔ ∃ t, r = Result.ofValue t) ∧
    (r.toBool = false ↔ ∃ e, r = Result.ofError e) := by
  cases r <;> simp [Result.toBool, Result.isT, Result.isEvaluationError]

/-- C6: `EvaluationParameters(z)` has zoom `z` and a null feature,
`EvaluationParameters(f)` has no zoom and feature `f`, and
`EvaluationParameters(z, f)` has zoom `z` and feature `f`; an absent zoom stays
absent. -/
theorem EvaluationParameters.constructors (z : float) (f : Option FeaturePtr) :
    (EvaluationParameters.ofZoom z : EvaluationParameters float FeaturePtr).zoom = some z ∧
    (EvaluationParameters.ofZoom z : EvaluationParameters float FeaturePtr).feature = none ∧
    (EvaluationParameters.ofFeature f : EvaluationParameters float FeaturePtr).zoom = none ∧
    (EvaluationParameters.ofFeature f : EvaluationParameters float FeaturePtr).feature = f ∧
    (EvaluationParameters.ofZoomFeature z f).zoom = some z ∧
    (EvaluationParameters.ofZoomFeature z f).feature = f :=
  ⟨rfl, rfl, rfl, rfl, rfl, rfl⟩

/-- C7: the EvaluationResult constructed from a 4-component array is in the value
arm (its boolean conversion is true, it is no error) and the Value it holds is
`toExpressionValue(arr)`. -/
theorem EvaluationResult.ofArray_value {double : Type}
    (toExpressionValue : array4 double → V) (arr : array4 double) :
    (EvaluationResult.ofArray toExpressionValue arr).toBool = true ∧
    (EvaluationResult.ofArray toExpressionValue arr).isEvaluationError = false ∧
    (EvaluationResult.ofArray toExpressionValue arr).error = none ∧
    (EvaluationResult.ofArray toExpressionValue arr).deref = some (toExpressionValue arr) :=
  ⟨rfl, rfl, rfl, rfl⟩

/-- C1: the typed `evaluate<T>` returns the value `t` exactly when the untyped
`evaluate` returns a Value `v` whose projection `fromExpressionValue<T>(v)` is
present and equal to `t`; when no such `v` and projection exist it returns an
EvaluationError. -/
theorem Expression.evaluateAs_value_iff (names : TypeNames V Ty)
    (conv : ValueConverter V Ty T) (E : Expression V Ty float FeaturePtr)
    (params : EvaluationParameters float FeaturePtr) (t : T) :
    (E.evaluateAs names conv params = some (Result.ofValue t) ↔
      ∃ v, E.evaluate params = Result.ofValue v ∧ conv.fromExpressionValue v = some t) ∧
    ((∃ v t', E.evaluate params = Result.ofValue v ∧ conv.fromExpressionValue v = some t') ∨
      ∃ e, E.evaluateAs names conv params = some (Result.ofError e)) := by
  unfold Expression.evaluateAs
  cases h : E.evaluate params with
  | ofError e => simp [Result.toBool, Result.isT, Result.error]
  | ofValue v =>
    cases hc : conv.fromExpressionValue v with
    | none => simp [Result.toBool, Result.isT, Result.deref, hc]
    | some t' => simp [Result.toBool, Result.isT, Result.deref, hc]

/-- C2: when the untyped `evaluate` returns the EvaluationError `e`, the typed
`evaluate<T>` returns exactly `e`, whatever the projection and the type names
are. -/
theorem Expression.evaluateAs_error (names : TypeNames V Ty)
    (conv : ValueConverter V Ty T) (E : Expression V Ty float FeaturePtr)
    (params : EvaluationParameters float FeaturePtr) (e : EvaluationError)
    (h : E.evaluate params = Result.ofError e) :
    E.evaluateAs names conv params = some (Result.ofError e) := by
  simp [Expression.evaluateAs, h, Result.toBool, Result.isT, Result.error]

/-- C3: when the untyped `evaluate` returns a Value `v` whose projection is
absent, the typed `evaluate<T>` returns the EvaluationError whose message is
"Expected value to be of type ", the name of the expected type, ", but found ",
the name of the type of `v`, " instead.". -/
theorem Expression.evaluateAs_mismatch (names : TypeNames V Ty)
    (conv : ValueConverter V Ty T) (E : Expression V Ty float FeaturePtr)
    (params : EvaluationParameters float FeaturePtr) (v : V)
    (h : E.evaluate params = Result.ofValue v)
    (hc : conv.fromExpressionValue v = none) :
    E.evaluateAs names conv params = some (Result.ofError
      ⟨"Expected value to be of type " ++ names.toString conv.valueTypeToExpressionType ++
        ", but found " ++ names.toString (names.typeOf v) ++ " instead."⟩) := by
  simp [Expression.evaluateAs, h, hc, Result.toBool, Result.isT, Result.deref,
    Expression.mismatchMessage]

/-- The typed call on an object returns what the typed overload returns on the
view of the object at the state of the call. -/
theorem Node.evaluateAs_outcome (names : TypeNames V Ty) (conv : ValueConverter V Ty T)
    (cls : NodeClass V Ty float FeaturePtr Members) (self : Node Ty Members)
    (params : EvaluationParameters float FeaturePtr) :
    (Node.evaluateAs names conv cls self params).1 =
      (Node.toExpression cls self).evaluateAs names conv params := by
  unfold Node.evaluateAs Expression.evaluateAs Node.toExpression
  cases h : (Node.evaluate cls self params).1 with
  | ofError e => simp [h, Result.toBool, Result.isT, Result.error]
  | ofValue v =>
    cases hc : conv.fromExpressionValue v with
    | none => simp [h, Result.toBool, Result.isT, Result.deref, hc]
    | some t' => simp [h, Result.toBool, Result.isT, Result.deref, hc]

/-- One typed call leaves the member `type` of the object as it was. -/
theorem Node.evaluateAs_getType (names : TypeNames V Ty) (conv : ValueConverter V Ty T)
    (cls : NodeClass V Ty float FeaturePtr Members) (self : Node Ty Members)
    (params : EvaluationParameters float FeaturePtr) :
    (Node.evaluateAs names conv cls self params).2.getType = self.getType := by
  have hty : (Node.evaluate cls self params).2.getType = self.getType := rfl
  unfold Node.evaluateAs
  generalize Node.evaluate cls self params = call at hty ⊢
  obtain ⟨result, self1⟩ := call
  cases result with
  | ofError e => simpa [Result.toBool, Result.isT, Result.error] using hty
  | ofValue v =>
    cases hc : conv.fromExpressionValue v with
    | none => simpa [Result.toBool, Result.isT, Result.deref, hc] using hty
    | some t' => simpa [Result.toBool, Result.isT, Result.deref, hc] using hty

/-- C8: `getType()` on a node constructed with the type `t` returns `t`, and it
returns `t` after any sequence of typed `evaluate<T>` calls on that node,
whatever the subclass of the node, the target types and the parameters of the
calls, also when the calls change the members of the subclass. -/
theorem Node.getType_afterCalls (names : TypeNames V Ty)
    (cls : NodeClass V Ty float FeaturePtr Members) (t : Ty) (members_ : Members)
    (calls : List (Expression.TypedCall V Ty float FeaturePtr)) :
    (Node.construct t members_).getType = t ∧
    (Node.afterCalls names cls (Node.construct t members_) calls).getType = t := by
  refine ⟨rfl, ?_⟩
  have key : ∀ (cs : List (Expression.TypedCall V Ty float FeaturePtr))
      (self : Node Ty Members),
      (Node.afterCalls names cls self cs).getType = self.getType := by
    intro cs
    induction cs with
    | nil => intro self; rfl
    | cons c cs ih =>
      intro self
      simp only [Node.afterCalls]
      rw [ih, Node.evaluateAs_getType]
  rw [key]
  rfl

/-- C9: no assert of `Result::error` or `Result::operator*` fails in the typed
`evaluate<T>`: the call returns a result on every path, for every expression,
parameters and target type. -/
theorem Expression.evaluateAs_no_assert (names : TypeNames V Ty)
    (conv : ValueConverter V Ty T) (E : Expression V Ty float FeaturePtr)
    (params : EvaluationParameters float FeaturePtr) :
    ∃ r, E.evaluateAs names conv params = some r := by
  unfold Expression.evaluateAs
  cases h : E.evaluate params with
  | ofError e => simp [Result.toBool, Result.isT, Result.error]
  | ofValue v =>
    cases hc : conv.fromExpressionValue v with
    | none => simp [Result.toBool, Result.isT, Result.deref, hc]
    | some t' => simp [Result.toBool, Result.isT, Result.deref, hc]

/-- C10: the typed result is a function of the untyped result alone: two nodes
whose untyped `evaluate` return equal results have equal typed results,
whatever their static types and parameters. -/
theorem Expression.evaluateAs_congr (names : TypeNames V Ty)
    (conv : ValueConverter V Ty T) (E1 E2 : Expression V Ty float FeaturePtr)
    (P1 P2 : EvaluationParameters float FeaturePtr)
    (h : E1.evaluate P1 = E2.evaluate P2) :
    E1.evaluateAs names conv P1 = E2.evaluateAs names conv P2 := by
  simp only [Expression.evaluateAs, h]

/-! ## The theorems at concrete nodes -/

/-- The error of `failingNode` comes back unchanged from `evaluate<bool>`. -/
theorem Expression.evaluateAs_error_witness :
    failingNode.evaluate noContext =
      Result.ofError ⟨"zoom is not available in this evaluation context"⟩ ∧
    failingNode.evaluateAs specNames boolConverter noContext =
      some (Result.ofError ⟨"zoom is not available in this evaluation context"⟩) :=
  ⟨rfl, Expression.evaluateAs_error specNames boolConverter failingNode noContext
    ⟨"zoom is not available in this evaluation context"⟩ rfl⟩

/-- On `stringNode`, `evaluate<bool>` returns the error that names boolean as the
expected and string as the found type. -/
theorem Expression.evaluateAs_mismatch_witness :
    stringNode.evaluate noContext = Result.ofValue (Value.string "abc") ∧
    boolConverter.fromExpressionValue (Value.string "abc") = none ∧
    stringNode.evaluateAs specNames boolConverter noContext =
      some (Result.ofError
        ⟨"Expected value to be of type boolean, but found string instead."⟩) :=
  ⟨rfl, rfl, Expression.evaluateAs_mismatch specNames boolConverter stringNode noContext
    (Value.string "abc") rfl rfl⟩

/-- The nodes `mistypedNode` and `booleanNode` differ in static type and are
called with different parameters, return the same untyped result, and so the
same typed result. -/
theorem Expression.evaluateAs_congr_witness :
    mistypedNode.getType ≠ booleanNode.getType ∧
    mistypedNode.evaluate noContext = booleanNode.evaluate featureContext ∧
    mistypedNode.evaluateAs specNames boolConverter noContext =
      booleanNode.evaluateAs specNames boolConverter featureContext :=
  ⟨by decide, rfl,
    Expression.evaluateAs_congr specNames boolConverter mistypedNode booleanNode
      noContext featureContext rfl⟩

/-- Two typed calls on `countingNode` change the object, whose counter goes from
0 to 2, and leave its static type Boolean. -/
theorem Node.getType_afterCalls_counting :
    (Node.afterCalls specNames countingClass countingNode [boolCall, boolCall]).members = 2 ∧
    (Node.afterCalls specNames countingClass countingNode [boolCall, boolCall]) ≠
      countingNode ∧
    (Node.afterCalls specNames countingClass countingNode [boolCall, boolCall]).getType =
      ExprType.Boolean :=
  ⟨rfl, by
    intro h
    have hm := congrArg Node.members h
    revert hm
    decide,
    (Node.getType_afterCalls specNames countingClass ExprType.Boolean 0
      [boolCall, boolCall]).2⟩

end Theorems

end mbgl.style.expression
